import Mathlib

/-!
Verification of a plan-execute-observe agent.

Shallow embedding of the Python sources `app/promt/planning.py`,
`app/utils/tools.py`, `app/mcp/gaode_mcp.py` and `app/agent/MCPAgent.py`:
pure functions become Lean functions, stateful methods become explicit
state-passing functions, raised exceptions become `Except` / error values,
and the two external collaborators (the language-model endpoint and the
remote tool session) become oracle parameters of the run.
-/

/-! ## Python string primitives used by `planning.py` -/

/-- Characters treated as whitespace by Python `str.strip()` with no
argument, for the character repertoire this program feeds to it
(ASCII whitespace characters). -/
def pyIsSpaceChar (c : Char) : Bool :=
  c = ' ' || c = '\t' || c = '\n' || c = '\r' || c = '\x0b' || c = '\x0c'

/-- Remove the characters satisfying `p` from both ends of a character
list, as Python `str.strip(chars)` does. -/
def stripWhile (p : Char → Bool) (l : List Char) : List Char :=
  ((l.dropWhile p).reverse.dropWhile p).reverse

/-- Python `step.strip()`: strip whitespace from both ends. -/
def pyStrip (l : List Char) : List Char :=
  stripWhile pyIsSpaceChar l

/-- The character set of Python `step.strip(" 。\n")` used in
`Planning.set_plan_steps_from_text`. -/
def planResidueChar (c : Char) : Bool :=
  c = ' ' || c = '。' || c = '\n'

/-- Python `text.split(sep)` for a one-character separator: keeps empty
parts, `split` of the empty text is `[""]`. -/
def splitOnChar (sep : Char) : List Char → List (List Char)
  | [] => [[]]
  | c :: rest =>
    if c = sep then
      [] :: splitOnChar sep rest
    else
      match splitOnChar sep rest with
      | [] => [[c]]
      | h :: t => (c :: h) :: t

/-! ## `Planning` (`app/promt/planning.py`) -/

/-- The mutable state of a `Planning` object. -/
structure Planning where
  requirement : String
  info_list : List String
  plan_steps : List String
  current_step_index : Int
  deriving Repr, DecidableEq

/-- Model of `Planning.__init__(requirement)`. -/
def Planning.init (requirement : String) : Planning :=
  { requirement := requirement, info_list := [], plan_steps := [],
    current_step_index := -1 }

/-- Model of `Planning.add_info`: append one observation. -/
def Planning.add_info (p : Planning) (info : String) : Planning :=
  { p with info_list := p.info_list ++ [info] }

/-- Model of `Planning.set_plan_steps`: replace the whole step list, cursor `0`
when the list is non-empty, else `-1`. -/
def Planning.set_plan_steps (p : Planning) (steps : List String) : Planning :=
  { p with plan_steps := steps,
           current_step_index := if steps.isEmpty then -1 else 0 }

/-- The parser inside `Planning.set_plan_steps_from_text`:
`[step.strip(" 。\n") for step in plan_text.split("。") if step.strip()]`. -/
def parse_plan_steps (plan_text : String) : List String :=
  ((splitOnChar '。' plan_text.data).filter
      (fun st => !(pyStrip st).isEmpty)).map
    (fun st => String.mk (stripWhile planResidueChar st))

/-- Model of `Planning.set_plan_steps_from_text`. -/
def Planning.set_plan_steps_from_text (p : Planning) (plan_text : String) :
    Planning :=
  p.set_plan_steps (parse_plan_steps plan_text)

/-- Model of `Planning.update_plan_step`; the raised `IndexError` is rendered with
`Except.error`. -/
def Planning.update_plan_step (p : Planning) (index : Int) (step : String) :
    Except String Planning :=
  if 0 ≤ index ∧ index < (p.plan_steps.length : Int) then
    Except.ok { p with plan_steps := p.plan_steps.set index.toNat step }
  else
    Except.error "计划步骤索引超出范围"

/-- Model of `Planning.get_current_step`. -/
def Planning.get_current_step (p : Planning) : Option String :=
  if 0 ≤ p.current_step_index ∧
      p.current_step_index < (p.plan_steps.length : Int) then
    p.plan_steps[p.current_step_index.toNat]?
  else
    none

/-- Model of `Planning.advance_step`: the Python return value paired with the state
after the call. -/
def Planning.advance_step (p : Planning) : Bool × Planning :=
  if p.current_step_index + 1 < (p.plan_steps.length : Int) then
    (true, { p with current_step_index := p.current_step_index + 1 })
  else
    (false, p)

/-- Apply `n` successive `advance_step` calls, keeping only the state. -/
def Planning.advanceN (p : Planning) : Nat → Planning
  | 0 => p
  | n + 1 => (p.advance_step).2.advanceN n

/-- Model of `Planning.__str__`.  The `计划步骤` line of the source is commented
out there and therefore absent here as well; Python
`current_step or 未设置-placeholder` falls back on `None` and on the empty
string. -/
def Planning.render (p : Planning) : String :=
  "用户需求：" ++ p.requirement ++ "\n" ++ "已有信息：\n" ++
    (if p.info_list.isEmpty then "   （无）\n"
     else String.join (p.info_list.map (fun item => "   - " ++ item ++ "\n"))) ++
    ("下一步操作：" ++
      (match p.get_current_step with
       | none => "（未设置）"
       | some s => if s = "" then "（未设置）" else s))

/-! ## Tool descriptors and the wire conversion (`app/utils/tools.py`) -/

/-- One property entry of a JSON-schema `properties` map, as used by the
tool descriptors of this program. -/
structure PropertySchema where
  type_ : String
  description : String
  default_ : Option Bool
  deriving Repr, DecidableEq

/-- The `inputSchema` / `parameters` payload
`{ type: "object", properties: {...}, required: [...] }`. -/
structure InputSchema where
  type_ : String
  properties : List (String × PropertySchema)
  required : List String
  deriving Repr, DecidableEq

/-- An `mcp.Tool` as consumed by `convert_tool_to_openai_param`:
`name`, `description`, `inputSchema`. -/
structure Tool where
  name : String
  description : String
  inputSchema : InputSchema
  deriving Repr, DecidableEq

/-- The `function` payload of a converted tool record. -/
structure FunctionDef where
  name : String
  description : String
  parameters : InputSchema
  deriving Repr, DecidableEq

/-- The runtime value of a `ChatCompletionToolParam` produced by
`convert_tool_to_openai_param`: a dict with exactly the keys `type` and
`function`. -/
structure ChatCompletionToolParam where
  type_ : String
  function : FunctionDef
  deriving Repr, DecidableEq

/-- Model of `convert_tool_to_openai_param` (`app/utils/tools.py`). -/
def convert_tool_to_openai_param (tool : Tool) : ChatCompletionToolParam :=
  { type_ := "function",
    function := { name := tool.name, description := tool.description,
                  parameters := tool.inputSchema } }

/-- Model of `convert_tools_to_openai_params` (`app/utils/tools.py`). -/
def convert_tools_to_openai_params (tools : List Tool) :
    List ChatCompletionToolParam :=
  tools.map convert_tool_to_openai_param

/-- Reading a converted record back into a descriptor; used to state that
the conversion is lossless. -/
def tool_of_openai_param (p : ChatCompletionToolParam) : Tool :=
  { name := p.function.name, description := p.function.description,
    inputSchema := p.function.parameters }

/-- A value stored in the converted tool dict. -/
inductive ToolParamValue
  | str (s : String)
  | fn (f : FunctionDef)
  deriving Repr, DecidableEq

/-- Python subscript access on the converted dict
`{"type": ..., "function": ...}`: exactly the keys `type` and `function`
are present, any other key is absent. -/
def ChatCompletionToolParam.dictGet (t : ChatCompletionToolParam)
    (k : String) : Option ToolParamValue :=
  if k = "type" then some (ToolParamValue.str t.type_)
  else if k = "function" then some (ToolParamValue.fn t.function)
  else none

/-! ## `GaoDeMCPClient` (`app/mcp/gaode_mcp.py`) -/

/-- Python exception classes raised by the embedded code. -/
inductive PyError
  | runtimeError (msg : String)
  | valueError (msg : String)
  | keyError (key : String)
  | jsonDecodeError (msg : String)
  deriving Repr, DecidableEq

/-- Network operations performed against the remote tool session. -/
inductive NetOp
  | listTools
  | invokeTool (name : String) (params : String)
  deriving Repr, DecidableEq

/-- The mutable state of a `GaoDeMCPClient`: whether a session is active
and the `_tools` cache. -/
structure GaoDeClientState where
  sessionConnected : Bool
  toolsCache : List ChatCompletionToolParam
  deriving Repr, DecidableEq

/-- The list comprehension `[tool["name"] for tool in self._tools]` under
Python dict semantics: the first missing key raises `KeyError`. -/
def lookupNames : List ChatCompletionToolParam →
    Except PyError (List ToolParamValue)
  | [] => Except.ok []
  | t :: rest =>
    match t.dictGet "name" with
    | none => Except.error (PyError.keyError "name")
    | some v =>
      match lookupNames rest with
      | Except.error e => Except.error e
      | Except.ok vs => Except.ok (v :: vs)

/-- Model of `GaoDeMCPClient.call_tool`.  Here `remoteTools` is what the remote session
serves on `list_tools`, `invokeResult` is the opaque result of
`session.call_tool`.  Returns the client state after the call, the
result or the raised exception, and the network operations performed,
in order. -/
def GaoDeMCPClient.call_tool (remoteTools : List Tool)
    (invokeResult : String → String → String)
    (st : GaoDeClientState) (tool_name : String) (params : String) :
    GaoDeClientState × Except PyError String × List NetOp :=
  if !st.sessionConnected then
    (st, Except.error (PyError.runtimeError "请先在 connect() 中使用 MCPClient"), [])
  else
    let fetch :=
      if st.toolsCache.isEmpty then
        ({ st with toolsCache := convert_tools_to_openai_params remoteTools },
          [NetOp.listTools])
      else
        (st, ([] : List NetOp))
    match lookupNames fetch.1.toolsCache with
    | Except.error e => (fetch.1, Except.error e, fetch.2)
    | Except.ok names =>
      if !(names.contains (ToolParamValue.str tool_name)) then
        (fetch.1,
          Except.error (PyError.valueError
            ("工具 \x27" ++ tool_name ++ "\x27 未注册或不可用")),
          fetch.2)
      else
        (fetch.1, Except.ok (invokeResult tool_name params),
          fetch.2 ++ [NetOp.invokeTool tool_name params])

/-! ## `MCPAgent` (`app/agent/MCPAgent.py`) -/

/-- One tool-invocation request inside a model reply. -/
structure ToolCallReq where
  name : String
  arguments : String
  deriving Repr, DecidableEq

/-- The message of the last choice of a model reply. -/
structure ModelMessage where
  content : String
  tool_calls : List ToolCallReq
  deriving Repr, DecidableEq

/-- The last choice of a model reply. -/
structure ModelResponse where
  finish_reason : String
  message : ModelMessage
  deriving Repr, DecidableEq

/-- The external collaborators of one run: `llm k` is the reply to the
`k`-th model call of the run (counting from 0), `jsonLoads` is
`json.loads` on argument text (`none` models a parse failure),
`remoteTools` is what the tool session serves on `list_tools`, and
`invokeResult` is the opaque result of `session.call_tool`. -/
structure RunEnv where
  llm : Nat → ModelResponse
  jsonLoads : String → Option String
  remoteTools : List Tool
  invokeResult : String → String → String

/-- The progress events yielded by `MCPAgent.run`, one constructor per
`yield` site of the source. -/
inductive RunEvent
  | planHeader
  | planBody (s : String)
  | separator
  | currentStep (s : String)
  | toolCall (name : String) (args : String)
  | noNextStep
  | finalAnswer (s : String)
  deriving Repr, DecidableEq

/-- The exact strings yielded by the source for each event. -/
def RunEvent.text : RunEvent → String
  | RunEvent.planHeader => "----------当前计划----------"
  | RunEvent.planBody s => s
  | RunEvent.separator => "---------------------------"
  | RunEvent.currentStep s => s
  | RunEvent.toolCall n a => "调用工具: " ++ n ++ ", 参数: " ++ a
  | RunEvent.noNextStep => "没有下一步了，直接输出结果"
  | RunEvent.finalAnswer s => "最终答案：" ++ s

/-- One request sent to the model endpoint: role/content message pairs
and whether the tool catalog is attached. -/
structure LLMRequest where
  messages : List (String × String)
  tools_attached : Bool
  deriving Repr, DecidableEq

/-- Errors that can escape `MCPAgent.run`.  `LLMInvokeError` is the single
exception class of `app.llm.exceptions` used both by `LLMClient.call`
(transport failures, message prefix `模型调用异常：`) and by
`MCPAgent.run` (round-budget exhaustion). -/
inductive RunError
  | llmInvokeError (msg : String)
  | pyError (e : PyError)
  deriving Repr, DecidableEq

/-- The Python exception class of a `RunError` — what an
`except SomeClass` handler can discriminate on. -/
def RunError.pythonClass : RunError → String
  | RunError.llmInvokeError _ => "LLMInvokeError"
  | RunError.pyError (PyError.runtimeError _) => "RuntimeError"
  | RunError.pyError (PyError.valueError _) => "ValueError"
  | RunError.pyError (PyError.keyError _) => "KeyError"
  | RunError.pyError (PyError.jsonDecodeError _) => "JSONDecodeError"

/-- Python `str(x)` on the `Optional[str]` current step yielded at the
start of each round. -/
def pyStrOfOption : Option String → String
  | none => "None"
  | some s => s

/-- The loop variables of `MCPAgent.run` threaded through the rounds. -/
structure LoopState where
  planning : Planning
  client : GaoDeClientState
  llmCount : Nat
  deriving Repr

/-- The outcome of the tool-call phase of one round. -/
structure ToolPhaseResult where
  client : GaoDeClientState
  planning : Planning
  llmCount : Nat
  events : List RunEvent
  calls : List LLMRequest
  netops : List NetOp
  err : Option RunError
  deriving Repr

/-- The `for tool_call in result.choices[-1].message.tool_calls:` loop:
for each request, yield the tool-call progress event, `json.loads` the
arguments, invoke `gaode_client.call_tool`, summarize the result with a
further model call and append the summary via `add_info`.  A raised
exception aborts the loop (and the run). -/
def processToolCalls (env : RunEnv) :
    GaoDeClientState → Planning → Nat → List ToolCallReq → ToolPhaseResult
  | client, planning, k, [] =>
    { client := client, planning := planning, llmCount := k,
      events := [], calls := [], netops := [], err := none }
  | client, planning, k, tc :: rest =>
    let ev := RunEvent.toolCall tc.name tc.arguments
    match env.jsonLoads tc.arguments with
    | none =>
      { client := client, planning := planning, llmCount := k,
        events := [ev], calls := [], netops := [],
        err := some (RunError.pyError (PyError.jsonDecodeError tc.arguments)) }
    | some parsed =>
      let r := GaoDeMCPClient.call_tool env.remoteTools env.invokeResult
        client tc.name parsed
      match r.2.1 with
      | Except.error e =>
        { client := r.1, planning := planning, llmCount := k,
          events := [ev], calls := [], netops := r.2.2,
          err := some (RunError.pyError e) }
      | Except.ok toolRes =>
        let sumReq : LLMRequest :=
          { messages := [("user", "工具调用结果: " ++ toolRes ++ ",整合数据信息")],
            tools_attached := false }
        let planning1 := planning.add_info ((env.llm k).message.content)
        let restR := processToolCalls env r.1 planning1 (k + 1) rest
        { client := restR.client, planning := restR.planning,
          llmCount := restR.llmCount,
          events := ev :: restR.events, calls := sumReq :: restR.calls,
          netops := r.2.2 ++ restR.netops, err := restR.err }

/-- How one iteration of the `for _ in range(max_rounds)` loop ends. -/
inductive RoundExit
  | nextRound
  | finalized (answer : String)
  | failed (e : RunError)
  deriving Repr, DecidableEq

/-- The full result of one iteration of the round loop. -/
structure RoundResult where
  state : LoopState
  events : List RunEvent
  calls : List LLMRequest
  netops : List NetOp
  exit : RoundExit
  deriving Repr

/-- One iteration of the round loop of `MCPAgent.run`: yield the round
separator and the current step, call the model with the rendered plan
and the tool catalog attached, run the tool-call phase when
`finish_reason == "tool_calls"`, then `advance_step`; when it returns
`False`, yield the no-next-step notice and call the model once more for
the final answer. -/
def runRound (env : RunEnv) (st : LoopState) : RoundResult :=
  let evs0 := [RunEvent.separator,
    RunEvent.currentStep (pyStrOfOption st.planning.get_current_step)]
  let roundReq : LLMRequest :=
    { messages := [("user", st.planning.render)], tools_attached := true }
  let resp := env.llm st.llmCount
  let tp :=
    if resp.finish_reason = "tool_calls" then
      processToolCalls env st.client st.planning (st.llmCount + 1)
        resp.message.tool_calls
    else
      { client := st.client, planning := st.planning,
        llmCount := st.llmCount + 1,
        events := [], calls := [], netops := [], err := none }
  match tp.err with
  | some e =>
    { state :=
        { planning := tp.planning, client := tp.client, llmCount := tp.llmCount },
      events := evs0 ++ tp.events, calls := roundReq :: tp.calls,
      netops := tp.netops, exit := RoundExit.failed e }
  | none =>
    let adv := tp.planning.advance_step
    if adv.1 then
      { state :=
          { planning := adv.2, client := tp.client, llmCount := tp.llmCount },
        events := evs0 ++ tp.events, calls := roundReq :: tp.calls,
        netops := tp.netops, exit := RoundExit.nextRound }
    else
      let finReq : LLMRequest :=
        { messages :=
            [("user", "根据以下信息给出最终结果:\n" ++ adv.2.render)],
          tools_attached := false }
      { state :=
          { planning := adv.2, client := tp.client, llmCount := tp.llmCount + 1 },
        events := evs0 ++ tp.events ++ [RunEvent.noNextStep],
        calls := roundReq :: (tp.calls ++ [finReq]),
        netops := tp.netops,
        exit := RoundExit.finalized ((env.llm tp.llmCount).message.content) }

/-- Events, requests, network operations and the number of executed
rounds accumulated so far. -/
structure RunAcc where
  events : List RunEvent
  calls : List LLMRequest
  netops : List NetOp
  rounds : Nat
  deriving Repr

/-- How the bounded round loop ends: `exhausted` means the `for` loop ran
out of its `range(max_rounds)` budget without a `break`. -/
inductive LoopOutcome
  | finalized (answer : String)
  | failed (e : RunError)
  | exhausted
  deriving Repr, DecidableEq

/-- The `for _ in range(max_rounds)` loop. -/
def runLoop (env : RunEnv) :
    Nat → LoopState → RunAcc → RunAcc × LoopState × LoopOutcome
  | 0, st, acc => (acc, st, LoopOutcome.exhausted)
  | n + 1, st, acc =>
    let r := runRound env st
    let acc1 : RunAcc :=
      { events := acc.events ++ r.events, calls := acc.calls ++ r.calls,
        netops := acc.netops ++ r.netops, rounds := acc.rounds + 1 }
    match r.exit with
    | RoundExit.nextRound => runLoop env n r.state acc1
    | RoundExit.finalized a => (acc1, r.state, LoopOutcome.finalized a)
    | RoundExit.failed e => (acc1, r.state, LoopOutcome.failed e)

/-- The overall result of a run: the yielded events, the model requests
made, the tool-session network operations, the number of executed
rounds, the escaped exception (if any), the returned final answer (if
any), and the loop state left behind. -/
structure RunResult where
  events : List RunEvent
  calls : List LLMRequest
  netops : List NetOp
  rounds : Nat
  error : Option RunError
  final : Option String
  endState : LoopState
  deriving Repr

/-- The message of the `LLMInvokeError` raised when no final answer was
produced within the round budget. -/
def exhaustedMsg : String := "超过最大轮数仍未得到最终答案。"

/-- Model of `MCPAgent.build_system_prompt_with_tools`: the planning system prompt
built from the tool catalog, one `- <name>：<description>；` line per
tool. -/
def MCPAgent.build_system_prompt_with_tools
    (tools : List ChatCompletionToolParam) : String :=
  let intro :=
    "你是一个助手，根据用户已有的信息和可用工具，制定出一系列可执行的步骤。（如果工具需要的信息缺失就不要加到步骤中）" ++
    "每一步都应是调用工具可以完成的具体操作，每一个步中只能有一个工具，步骤应清晰具体，逻辑合理。" ++
    "使用英文逗号 `。` 分隔每个步骤，不要换行，最多3步。用中文回复。\n\n" ++
    "当前可用的工具如下：\n"
  intro ++ String.intercalate "\n"
    (tools.map (fun tool =>
      "- " ++ tool.function.name ++ "：" ++ tool.function.description ++ "；"))

/-- Model of `MCPAgent.get_default_tools`: the static capability catalog. -/
def MCPAgent.default_tools : List ChatCompletionToolParam :=
  [{ type_ := "function",
     function :=
      { name := "maps_direction_bicycling",
        description := "骑行路径规划用于规划骑行通勤方案，规划时会考虑天桥、单行线、封路等情况。最大支持 500km 的骑行路线规划",
        parameters :=
          { type_ := "object",
            properties :=
              [("origin",
                { type_ := "string",
                  description := "出发点经纬度，坐标格式为：经度，纬度",
                  default_ := none }),
               ("destination",
                { type_ := "string",
                  description := "目的地经纬度，坐标格式为：经度，纬度",
                  default_ := none })],
            required := ["origin", "destination"] } } },
   { type_ := "function",
     function :=
      { name := "maps_direction_driving",
        description := "驾车路径规划 API 可以根据用户起终点经纬度坐标规划以小客车、轿车通勤出行的方案，并且返回通勤方案的数据。",
        parameters :=
          { type_ := "object",
            properties :=
              [("origin",
                { type_ := "string",
                  description := "出发点经纬度，坐标格式为：经度，纬度",
                  default_ := none }),
               ("destination",
                { type_ := "string",
                  description := "目的地经纬度，坐标格式为：经度，纬度",
                  default_ := none })],
            required := ["origin", "destination"] } } },
   { type_ := "function",
     function :=
      { name := "maps_direction_transit_integrated",
        description := "根据用户起终点经纬度坐标规划综合各类公共（火车、公交、地铁）交通方式的通勤方案，并且返回通勤方案的数据，跨城场景下必须传起点城市与终点城市",
        parameters :=
          { type_ := "object",
            properties :=
              [("origin",
                { type_ := "string",
                  description := "出发点经纬度，坐标格式为：经度，纬度",
                  default_ := none }),
               ("destination",
                { type_ := "string",
                  description := "目的地经纬度，坐标格式为：经度，纬度",
                  default_ := none }),
               ("city",
                { type_ := "string",
                  description := "公共交通规划起点城市",
                  default_ := none }),
               ("cityd",
                { type_ := "string",
                  description := "公共交通规划终点城市",
                  default_ := none })],
            required := ["origin", "destination", "city", "cityd"] } } },
   { type_ := "function",
     function :=
      { name := "maps_direction_walking",
        description := "根据输入起点终点经纬度坐标规划100km 以内的步行通勤方案，并且返回通勤方案的数据",
        parameters :=
          { type_ := "object",
            properties :=
              [("origin",
                { type_ := "string",
                  description := "出发点经度，纬度，坐标格式为：经度，纬度",
                  default_ := none }),
               ("destination",
                { type_ := "string",
                  description := "目的地经度，纬度，坐标格式为：经度，纬度",
                  default_ := none })],
            required := ["origin", "destination"] } } },
   { type_ := "function",
     function :=
      { name := "maps_distance",
        description := "测量两个经纬度坐标之间的距离,支持驾车、步行以及球面距离测量",
        parameters :=
          { type_ := "object",
            properties :=
              [("origins",
                { type_ := "string",
                  description := "起点经度，纬度，可以传多个坐标，使用分号隔离，比如120,30;120,31，坐标格式为：经度，纬度",
                  default_ := none }),
               ("destination",
                { type_ := "string",
                  description := "终点经度，纬度，坐标格式为：经度，纬度",
                  default_ := none }),
               ("type",
                { type_ := "string",
                  description := "距离测量类型,1代表驾车距离测量，0代表直线距离测量，3步行距离测量",
                  default_ := none })],
            required := ["origins", "destination"] } } },
   { type_ := "function",
     function :=
      { name := "maps_geo",
        description := "将详细的结构化地址转换为经纬度坐标。支持对地标性名胜景区、建筑物名称解析为经纬度坐标",
        parameters :=
          { type_ := "object",
            properties :=
              [("address",
                { type_ := "string",
                  description := "待解析的结构化地址信息",
                  default_ := none }),
               ("city",
                { type_ := "string",
                  description := "指定查询的城市",
                  default_ := none })],
            required := ["address"] } } },
   { type_ := "function",
     function :=
      { name := "maps_regeocode",
        description := "将一个高德经纬度坐标转换为行政区划地址信息",
        parameters :=
          { type_ := "object",
            properties :=
              [("location",
                { type_ := "string",
                  description := "经纬度",
                  default_ := none })],
            required := ["location"] } } },
   { type_ := "function",
     function :=
      { name := "maps_ip_location",
        description := "IP 定位根据用户输入的 IP 地址，定位 IP 的所在位置",
        parameters :=
          { type_ := "object",
            properties :=
              [("ip",
                { type_ := "string",
                  description := "IP地址",
                  default_ := none })],
            required := ["ip"] } } },
   { type_ := "function",
     function :=
      { name := "maps_around_search",
        description := "周边搜，根据用户传入关键词以及坐标location，搜索出radius半径范围的POI",
        parameters :=
          { type_ := "object",
            properties :=
              [("keywords",
                { type_ := "string",
                  description := "搜索关键词",
                  default_ := none }),
               ("location",
                { type_ := "string",
                  description := "中心点经度纬度",
                  default_ := none }),
               ("radius",
                { type_ := "string",
                  description := "搜索半径",
                  default_ := none })],
            required := ["keywords", "location"] } } },
   { type_ := "function",
     function :=
      { name := "maps_search_detail",
        description := "查询关键词搜或者周边搜获取到的POI ID的详细信息",
        parameters :=
          { type_ := "object",
            properties :=
              [("id",
                { type_ := "string",
                  description := "关键词搜或者周边搜获取到的POI ID",
                  default_ := none })],
            required := ["id"] } } },
   { type_ := "function",
     function :=
      { name := "maps_text_search",
        description := "关键字搜索 API 根据用户输入的关键字进行 POI 搜索，并返回相关的信息",
        parameters :=
          { type_ := "object",
            properties :=
              [("keywords",
                { type_ := "string",
                  description := "查询关键字",
                  default_ := none }),
               ("city",
                { type_ := "string",
                  description := "查询城市",
                  default_ := none }),
               ("citylimit",
                { type_ := "boolean",
                  description := "是否限制城市范围内搜索，默认不限制",
                  default_ := some false })],
            required := ["keywords"] } } },
   { type_ := "function",
     function :=
      { name := "maps_weather",
        description := "根据城市名称或者标准adcode查询指定城市的天气",
        parameters :=
          { type_ := "object",
            properties :=
              [("city",
                { type_ := "string",
                  description := "城市名称或者adcode",
                  default_ := none })],
            required := ["city"] } } }]

/-- The planning state after the planning phase: `Planning(user_input)`
followed by `set_plan_steps_from_text` on the planning reply. -/
def initialPlanning (env : RunEnv) (user_input : String) : Planning :=
  (Planning.init user_input).set_plan_steps_from_text
    ((env.llm 0).message.content)

/-- The planning-phase model request: system prompt built from the
default tools, plus the user input; no tool catalog attached. -/
def planningRequest (user_input : String) : LLMRequest :=
  { messages :=
      [("system", MCPAgent.build_system_prompt_with_tools MCPAgent.default_tools),
       ("user", user_input)],
    tools_attached := false }

/-- The loop state at the start of round 1: plan parsed, session
connected, tools cache empty, one model call made so far. -/
def initLoopState (env : RunEnv) (user_input : String) : LoopState :=
  { planning := initialPlanning env user_input,
    client := { sessionConnected := true, toolsCache := [] },
    llmCount := 1 }

/-- The events and requests accumulated by the planning phase, before the
round loop starts: the planning model call, the plan header, the
rendered plan and the closing separator. -/
def initRunAcc (env : RunEnv) (user_input : String) : RunAcc :=
  { events := [RunEvent.planHeader,
      RunEvent.planBody (initialPlanning env user_input).render,
      RunEvent.separator],
    calls := [planningRequest user_input], netops := [], rounds := 0 }

/-- Model of `MCPAgent.run`: planning phase, at most `max_rounds = 6` rounds, then
the `if not final_answer: raise LLMInvokeError(...)` guard.  An
exception raised inside the loop escapes the generator; a final answer
that is the empty string is falsy in Python and is therefore also
turned into the exhaustion error. -/
def MCPAgent.run (env : RunEnv) (user_input : String) : RunResult :=
  let r := runLoop env 6 (initLoopState env user_input)
    (initRunAcc env user_input)
  match r.2.2 with
  | LoopOutcome.failed e =>
    { events := r.1.events, calls := r.1.calls, netops := r.1.netops,
      rounds := r.1.rounds, error := some e, final := none,
      endState := r.2.1 }
  | LoopOutcome.exhausted =>
    { events := r.1.events, calls := r.1.calls, netops := r.1.netops,
      rounds := r.1.rounds,
      error := some (RunError.llmInvokeError exhaustedMsg), final := none,
      endState := r.2.1 }
  | LoopOutcome.finalized a =>
    if a = "" then
      { events := r.1.events, calls := r.1.calls, netops := r.1.netops,
        rounds := r.1.rounds,
        error := some (RunError.llmInvokeError exhaustedMsg), final := none,
        endState := r.2.1 }
    else
      { events := r.1.events ++ [RunEvent.finalAnswer a], calls := r.1.calls,
        netops := r.1.netops, rounds := r.1.rounds, error := none,
        final := some a, endState := r.2.1 }

/-- The loop state after `n` rounds taken from `st` (following the
`nextRound` exits). -/
def stateAfter (env : RunEnv) (st : LoopState) : Nat → LoopState
  | 0 => st
  | n + 1 => (runRound env (stateAfter env st n)).state

/-- Decidable form of "the first six rounds of the run from `u` all end
with a successful `advance_step`, i.e. the run never reaches the
no-more-steps condition within the budget". -/
def allRoundsNext (env : RunEnv) (u : String) : Bool :=
  (List.range 6).all (fun i =>
    decide ((runRound env (stateAfter env (initLoopState env u) i)).exit =
      RoundExit.nextRound))

/-- Returns `env` with the message content of its `k`-th model reply replaced by
`c`; every other part of every reply is unchanged. -/
def RunEnv.withContentAt (env : RunEnv) (k : Nat) (c : String) : RunEnv :=
  { env with
    llm := fun j =>
      if j = k then
        { env.llm j with
          message := { (env.llm j).message with content := c } }
      else env.llm j }

/-! ## Decidable helpers for invariant statements -/

/-- The cursor invariant of the Step Plan: whenever `cursor >= 0` it is a
valid index into `plan_steps`. -/
def Planning.cursor_inv (p : Planning) : Bool :=
  decide (0 ≤ p.current_step_index →
    p.current_step_index < (p.plan_steps.length : Int))

/-- Whether `f` holds of the result of a successful `update_plan_step`;
trivially true when the call raised. -/
def onUpdateOk (e : Except String Planning) (f : Planning → Bool) : Bool :=
  match e with
  | Except.ok q => f q
  | Except.error _ => true

/-! ## Concrete environments used as witnesses and counterexamples -/

/-- A plain-answer model reply with content `c`. -/
def stopResponse (c : String) : ModelResponse :=
  { finish_reason := "stop", message := { content := c, tool_calls := [] } }

/-- A tool-call model reply carrying the requests `reqs`. -/
def toolCallsResponse (reqs : List ToolCallReq) : ModelResponse :=
  { finish_reason := "tool_calls", message := { content := "", tool_calls := reqs } }

/-- The `maps_weather` capability descriptor as served by the remote tool
provider (`mcp.Tool` shape). -/
def mapsWeatherTool : Tool :=
  { name := "maps_weather",
    description := "根据城市名称或者标准adcode查询指定城市的天气",
    inputSchema :=
      { type_ := "object",
        properties :=
          [("city",
            { type_ := "string", description := "城市名称或者adcode",
              default_ := none })],
        required := ["city"] } }

/-- An environment whose planning reply has seven steps and whose round
replies are all plain answers, so `advance_step` succeeds in each of the
six budgeted rounds and the loop never reaches the no-more-steps
condition. -/
def envSeven : RunEnv :=
  { llm := fun k =>
      if k = 0 then stopResponse "一。二。三。四。五。六。七。"
      else stopResponse "继续",
    jsonLoads := fun _ => none,
    remoteTools := [],
    invokeResult := fun _ _ => "" }

/-- An environment with an empty planning reply and plain-answer round
replies: the plan is empty and the final answer is requested in round
one. -/
def envEmptyPlanStop : RunEnv :=
  { llm := fun k =>
      if k = 2 then stopResponse "上海今天晴。" else stopResponse "",
    jsonLoads := fun s => some s,
    remoteTools := [mapsWeatherTool],
    invokeResult := fun _ _ => "晴" }

/-- An environment with an empty planning reply whose first round reply
requests a tool call. -/
def envEmptyPlanTools : RunEnv :=
  { llm := fun k =>
      if k = 1 then
        toolCallsResponse
          [{ name := "maps_weather", arguments := "\x7b\x22city\x22: \x22上海\x22\x7d" }]
      else stopResponse "",
    jsonLoads := fun s => some s,
    remoteTools := [mapsWeatherTool],
    invokeResult := fun _ _ => "晴" }

/-- The round of Scenario C: the model requests `maps_weather` with
`city = 上海` against a remote catalog containing `maps_weather`. -/
def envScenarioC : RunEnv :=
  { llm := fun k =>
      if k = 1 then
        toolCallsResponse
          [{ name := "maps_weather", arguments := "\x7b\x22city\x22: \x22上海\x22\x7d" }]
      else stopResponse "整合后的天气信息",
    jsonLoads := fun s => some s,
    remoteTools := [mapsWeatherTool],
    invokeResult := fun _ _ => "晴 25 度" }

/-- The loop state at the start of the Scenario C round. -/
def stScenarioC : LoopState :=
  { planning :=
      { requirement := "帮我看一下上海的天气", info_list := [],
        plan_steps := ["查询上海天气"], current_step_index := 0 },
    client := { sessionConnected := true, toolsCache := [] },
    llmCount := 1 }


/-- Decidable form of "every delimiter-separated candidate of the
planning text is blank". -/
def allCandidatesBlank (T : String) : Bool :=
  (splitOnChar '。' T.data).all (fun cand => (pyStrip cand).isEmpty)

/-! ## Lemmas about the string primitives -/

theorem mem_dropWhile_of_mem {p : Char → Bool} {l : List Char} {c : Char}
    (hc : c ∈ l) (hpc : p c = false) : c ∈ l.dropWhile p := by
  induction l with
  | nil => cases hc
  | cons a l ih =>
    by_cases ha : p a
    · rw [List.dropWhile_cons_of_pos ha]
      rcases List.mem_cons.1 hc with rfl | hc2
      · rw [ha] at hpc; cases hpc
      · exact ih hc2
    · rw [List.dropWhile_cons_of_neg ha]
      exact hc

theorem mem_of_mem_dropWhile {p : Char → Bool} {l : List Char} {c : Char}
    (hc : c ∈ l.dropWhile p) : c ∈ l := by
  induction l with
  | nil => simp [List.dropWhile] at hc
  | cons a l ih =>
    by_cases ha : p a
    · rw [List.dropWhile_cons_of_pos ha] at hc
      exact List.mem_cons_of_mem a (ih hc)
    · rwa [List.dropWhile_cons_of_neg ha] at hc

theorem dropWhile_forall_iff (p : Char → Bool) (l : List Char) :
    (∀ c ∈ l.dropWhile p, p c = true) ↔ ∀ c ∈ l, p c = true := by
  constructor
  · intro h c hc
    by_cases hpc : p c
    · exact hpc
    · exact h c (mem_dropWhile_of_mem hc (by simpa using hpc))
  · intro h c hc
    exact h c (mem_of_mem_dropWhile hc)

theorem stripWhile_eq_nil_iff (p : Char → Bool) (l : List Char) :
    stripWhile p l = [] ↔ ∀ c ∈ l, p c = true := by
  unfold stripWhile
  rw [List.reverse_eq_nil_iff, List.dropWhile_eq_nil_iff]
  constructor
  · intro h
    exact (dropWhile_forall_iff p l).1
      (fun c hc => h c (List.mem_reverse.2 hc))
  · intro h c hc
    exact h c (mem_of_mem_dropWhile (List.mem_reverse.1 hc))

theorem mem_stripWhile_of_mem {p : Char → Bool} {l : List Char} {c : Char}
    (hc : c ∈ l) (hpc : p c = false) : c ∈ stripWhile p l := by
  unfold stripWhile
  exact List.mem_reverse.2 (mem_dropWhile_of_mem
    (List.mem_reverse.2 (mem_dropWhile_of_mem hc hpc)) hpc)

theorem splitOnChar_ne_nil (sep : Char) (l : List Char) :
    splitOnChar sep l ≠ [] := by
  cases l with
  | nil => simp [splitOnChar]
  | cons c rest =>
    rw [splitOnChar]
    by_cases h : c = sep
    · simp [h]
    · rw [if_neg h]
      cases splitOnChar sep rest <;> simp

theorem not_mem_splitOnChar (sep : Char) (l : List Char) :
    ∀ part ∈ splitOnChar sep l, sep ∉ part := by
  induction l with
  | nil =>
    intro part hp
    simp only [splitOnChar, List.mem_singleton] at hp
    simp [hp]
  | cons c rest ih =>
    intro part hp
    by_cases h : c = sep
    · rw [splitOnChar, if_pos h] at hp
      rcases List.mem_cons.1 hp with rfl | hp2
      · simp
      · exact ih part hp2
    · rw [splitOnChar, if_neg h] at hp
      cases hr : splitOnChar sep rest with
      | nil => exact absurd hr (by simp [splitOnChar_ne_nil])
      | cons hd tl =>
        rw [hr] at hp
        rcases List.mem_cons.1 hp with rfl | hp2
        · intro hmem
          rcases List.mem_cons.1 hmem with rfl | hmem2
          · exact h rfl
          · exact ih hd (hr ▸ List.mem_cons_self hd tl) hmem2
        · exact ih part (hr ▸ List.mem_cons_of_mem hd hp2)

/-! ## Planning lemmas -/

theorem advance_step_le (p : Planning) :
    p.current_step_index ≤ ((p.advance_step).2).current_step_index := by
  unfold Planning.advance_step
  split
  · simp
  · simp

theorem advanceN_le (n : Nat) : ∀ p : Planning,
    p.current_step_index ≤ (p.advanceN n).current_step_index := by
  induction n with
  | zero => intro p; simp [Planning.advanceN]
  | succ n ih =>
    intro p
    calc p.current_step_index ≤ ((p.advance_step).2).current_step_index :=
          advance_step_le p
      _ ≤ (((p.advance_step).2).advanceN n).current_step_index :=
          ih (p.advance_step).2
      _ = (p.advanceN (n + 1)).current_step_index := rfl

theorem advance_step_false_fix (p : Planning)
    (h : (p.advance_step).1 = false) : (p.advance_step).2 = p := by
  unfold Planning.advance_step at h ⊢
  split at h
  · cases h
  · split
    · omega
    · rfl

theorem advanceN_false_fix (n : Nat) : ∀ p : Planning,
    (p.advance_step).1 = false → p.advanceN n = p := by
  induction n with
  | zero => intro p _; rfl
  | succ n ih =>
    intro p h
    show ((p.advance_step).2).advanceN n = p
    rw [advance_step_false_fix p h]
    exact ih p h

theorem parse_plan_steps_nonblank (T : String) :
    ∀ s ∈ parse_plan_steps T,
      s.data ≠ [] ∧ ¬(∀ c ∈ s.data, pyIsSpaceChar c = true) := by
  intro s hs
  unfold parse_plan_steps at hs
  rcases List.mem_map.1 hs with ⟨cand, hcand, rfl⟩
  rcases List.mem_filter.1 hcand with ⟨hmem, hkeep⟩
  have hne : pyStrip cand ≠ [] := by
    intro hnil
    rw [hnil] at hkeep
    simp at hkeep
  have hex : ∃ c ∈ cand, pyIsSpaceChar c = false := by
    by_contra hall
    push_neg at hall
    refine hne ((stripWhile_eq_nil_iff _ _).2 (fun c hc => ?_))
    have hcc := hall c hc
    cases hpc : pyIsSpaceChar c
    · exact absurd hpc hcc
    · rfl
  rcases hex with ⟨c, hcmem, hcns⟩
  have hsep : '。' ∉ cand := not_mem_splitOnChar '。' T.data cand hmem
  have hc1 : c ≠ '。' := fun hcc => hsep (hcc ▸ hcmem)
  have hres : planResidueChar c = false := by
    simp only [pyIsSpaceChar, Bool.or_eq_false_iff, decide_eq_false_iff_not]
      at hcns
    simp only [planResidueChar, Bool.or_eq_false_iff, decide_eq_false_iff_not]
    exact ⟨⟨hcns.1.1.1.1.1, hc1⟩, hcns.1.1.1.2⟩
  have hcs : c ∈ stripWhile planResidueChar cand :=
    mem_stripWhile_of_mem hcmem hres
  constructor
  · intro hnil
    rw [show (String.mk (stripWhile planResidueChar cand)).data =
        stripWhile planResidueChar cand from rfl] at hnil
    rw [hnil] at hcs
    cases hcs
  · intro hall
    have := hall c hcs
    rw [hcns] at this
    cases this

theorem set_plan_steps_cursor_inv (p : Planning) (l : List String) :
    (p.set_plan_steps l).cursor_inv = true := by
  simp only [Planning.cursor_inv, Planning.set_plan_steps,
    decide_eq_true_eq]
  by_cases hl : l.isEmpty
  · rw [if_pos hl]
    intro h0
    omega
  · rw [if_neg hl]
    intro _
    have hnil : l ≠ [] := by simpa using hl
    have hlen : 0 < l.length := List.length_pos.2 hnil
    omega

/-! ## Claim theorems: the Step Plan -/

/-- C3 counterexample: the text `"查天气"` contains no `。` delimiter, yet
`set_plan_steps_from_text` produces the one-step plan `["查天气"]` with
cursor `0` — not the empty plan the claim requires for
delimiter-free texts. -/
theorem no_delimiter_text_gives_nonempty_plan :
    '。' ∉ "查天气".data ∧
    ((Planning.init "看天气").set_plan_steps_from_text "查天气").plan_steps =
      ["查天气"] ∧
    ((Planning.init "看天气").set_plan_steps_from_text
        "查天气").current_step_index = 0 := by
  refine ⟨by decide, by decide, by decide⟩

/-- C3 (amended): for every planning text whose delimiter-separated
candidates are all blank — in particular every text without a parsable
step, whether or not the delimiter occurs — `set_plan_steps_from_text`
yields the empty plan: `plan_steps = []`, cursor `-1`; the current step
is `none` and `advance_step` reports no further steps, which is what the
reasoning loop treats as "no further steps" rather than an error. -/
theorem blank_plan_text_yields_empty_plan (p : Planning) (T : String)
    (h : allCandidatesBlank T = true) :
    (p.set_plan_steps_from_text T).plan_steps = [] ∧
    (p.set_plan_steps_from_text T).current_step_index = -1 ∧
    (p.set_plan_steps_from_text T).get_current_step = none ∧
    ((p.set_plan_steps_from_text T).advance_step).1 = false := by
  have hparse : parse_plan_steps T = [] := by
    unfold parse_plan_steps
    have hf : (splitOnChar '。' T.data).filter
        (fun st => !(pyStrip st).isEmpty) = [] := by
      rw [List.filter_eq_nil_iff]
      intro a ha
      have hblank := List.all_eq_true.1 h a ha
      simp [hblank]
    rw [hf]
    rfl
  refine ⟨?_, ?_, ?_, ?_⟩
  · show parse_plan_steps T = []
    exact hparse
  · show (if (parse_plan_steps T).isEmpty then (-1 : Int) else 0) = -1
    rw [hparse]
    rfl
  · unfold Planning.get_current_step
    rw [show (p.set_plan_steps_from_text T).current_step_index =
        (if (parse_plan_steps T).isEmpty then (-1 : Int) else 0) from rfl,
      hparse]
    simp
  · unfold Planning.advance_step
    rw [show (p.set_plan_steps_from_text T).current_step_index =
        (if (parse_plan_steps T).isEmpty then (-1 : Int) else 0) from rfl,
      show (p.set_plan_steps_from_text T).plan_steps = parse_plan_steps T
        from rfl, hparse]
    simp

/-- Witness for the amended C3 theorem at the blank text `" 。。\n"`
(whitespace and delimiters only). -/
theorem blank_plan_text_yields_empty_plan_witness :
    allCandidatesBlank " 。。\n" = true ∧
    (((Planning.init "u").set_plan_steps_from_text " 。。\n").plan_steps = [] ∧
     ((Planning.init "u").set_plan_steps_from_text
         " 。。\n").current_step_index = -1 ∧
     ((Planning.init "u").set_plan_steps_from_text
         " 。。\n").get_current_step = none ∧
     (((Planning.init "u").set_plan_steps_from_text " 。。\n").advance_step).1
       = false) :=
  ⟨by decide,
    blank_plan_text_yields_empty_plan (Planning.init "u") " 。。\n" (by decide)⟩

/-- C4: `set_plan_steps_from_text` splits the text on `。`, trims each
kept candidate of space/delimiter/newline residue and discards blank
candidates; the resulting step list contains no empty and no
whitespace-only entry; the cursor is `0` exactly when the list is
non-empty and `-1` otherwise; and `"查天气。查景点。"` yields
`["查天气", "查景点"]` with cursor `0`. -/
theorem set_plan_steps_from_text_spec (p : Planning) (T : String) :
    (p.set_plan_steps_from_text T).plan_steps = parse_plan_steps T ∧
    (parse_plan_steps T).all
      (fun s => !s.data.isEmpty && !(s.data.all pyIsSpaceChar)) = true ∧
    (p.set_plan_steps_from_text T).current_step_index =
      (if (parse_plan_steps T).isEmpty then -1 else 0) ∧
    (p.set_plan_steps_from_text "查天气。查景点。").plan_steps =
      ["查天气", "查景点"] ∧
    (p.set_plan_steps_from_text "查天气。查景点。").current_step_index = 0 := by
  refine ⟨rfl, ?_, rfl, ?_, ?_⟩
  · rw [List.all_eq_true]
    intro s hs
    rcases parse_plan_steps_nonblank T s hs with ⟨h1, h2⟩
    have e1 : s.data.isEmpty = false := by
      cases hd : s.data
      · exact absurd hd h1
      · rfl
    have e2 : s.data.all pyIsSpaceChar = false := by
      cases ha : s.data.all pyIsSpaceChar
      · rfl
      · exact absurd (List.all_eq_true.1 ha) h2
    show (!s.data.isEmpty && !(s.data.all pyIsSpaceChar)) = true
    rw [e1, e2]
    rfl
  · exact (by decide :
      parse_plan_steps "查天气。查景点。" = ["查天气", "查景点"])
  · exact (by decide :
      (if (parse_plan_steps "查天气。查景点。").isEmpty then (-1 : Int)
       else 0) = 0)

/-- C6: `advance_step` returns `true` and increments the cursor exactly
when `cursor + 1 < len(steps)`, touching nothing else; on `false` the
state is completely unchanged; the cursor never decreases under repeated
calls; and once `advance_step` has returned `false` it returns `false`
after any number of further calls, until a new `set_plan_steps` /
`set_plan_steps_from_text` replaces the plan. -/
theorem advance_step_spec (p : Planning) (n : Nat) :
    ((p.advance_step).1 =
      decide (p.current_step_index + 1 < (p.plan_steps.length : Int))) ∧
    ((p.advance_step).1 = true →
      ((p.advance_step).2).current_step_index = p.current_step_index + 1 ∧
      ((p.advance_step).2).plan_steps = p.plan_steps ∧
      ((p.advance_step).2).info_list = p.info_list ∧
      ((p.advance_step).2).requirement = p.requirement) ∧
    ((p.advance_step).1 = false → (p.advance_step).2 = p) ∧
    p.current_step_index ≤ (p.advanceN n).current_step_index ∧
    ((p.advance_step).1 = false → ((p.advanceN n).advance_step).1 = false) := by
  refine ⟨?_, ?_, advance_step_false_fix p, advanceN_le n p, ?_⟩
  · by_cases hc : p.current_step_index + 1 < (p.plan_steps.length : Int)
    · simp [Planning.advance_step, hc]
    · simp [Planning.advance_step, hc]
  · intro h
    by_cases hc : p.current_step_index + 1 < (p.plan_steps.length : Int)
    · simp [Planning.advance_step, hc]
    · simp [Planning.advance_step, hc] at h
  · intro h
    rw [advanceN_false_fix n p h]
    exact h

/-- Witness for `advance_step_spec` at a one-step plan with cursor `0`:
`advance_step` returns `false` there and keeps returning `false` after
three further calls. -/
theorem advance_step_spec_witness :
    (({ requirement := "看天气", info_list := [], plan_steps := ["查天气"],
        current_step_index := 0 } : Planning).advance_step).1 = false ∧
    ((({ requirement := "看天气", info_list := [], plan_steps := ["查天气"],
         current_step_index := 0 } : Planning).advanceN 3).advance_step).1
      = false :=
  ⟨by decide,
    (advance_step_spec
      { requirement := "看天气", info_list := [], plan_steps := ["查天气"],
        current_step_index := 0 } 3).2.2.2.2 (by decide)⟩

/-- C8: every `Planning` operation preserves the cursor invariant
(`cursor < len(steps)` whenever `cursor ≥ 0`); the step list is only
changed by whole-list replacement (`set_plan_steps`,
`set_plan_steps_from_text`) or a length-preserving single-index
overwrite (`update_plan_step`), never shifted; and the observation list
never shrinks: `add_info` appends one entry and every other operation
leaves it unchanged. -/
theorem planning_ops_preserve_invariants (p : Planning)
    (s t step : String) (l : List String) (i : Int)
    (h : p.cursor_inv = true) :
    (p.add_info s).cursor_inv = true ∧
    (p.set_plan_steps l).cursor_inv = true ∧
    (p.set_plan_steps_from_text t).cursor_inv = true ∧
    ((p.advance_step).2).cursor_inv = true ∧
    onUpdateOk (p.update_plan_step i step) Planning.cursor_inv = true ∧
    (p.add_info s).plan_steps = p.plan_steps ∧
    ((p.advance_step).2).plan_steps = p.plan_steps ∧
    (p.set_plan_steps l).plan_steps = l ∧
    (p.set_plan_steps_from_text t).plan_steps = parse_plan_steps t ∧
    onUpdateOk (p.update_plan_step i step)
      (fun q => decide (q.plan_steps = p.plan_steps.set i.toNat step) &&
        decide (q.plan_steps.length = p.plan_steps.length)) = true ∧
    (p.add_info s).info_list = p.info_list ++ [s] ∧
    (p.set_plan_steps l).info_list = p.info_list ∧
    (p.set_plan_steps_from_text t).info_list = p.info_list ∧
    ((p.advance_step).2).info_list = p.info_list ∧
    onUpdateOk (p.update_plan_step i step)
      (fun q => decide (q.info_list = p.info_list)) = true := by
  refine ⟨h, set_plan_steps_cursor_inv p l, set_plan_steps_cursor_inv p _,
    ?_, ?_, rfl, ?_, rfl, rfl, ?_, rfl, rfl, rfl, ?_, ?_⟩
  · by_cases hc : p.current_step_index + 1 < (p.plan_steps.length : Int)
    · simp only [Planning.advance_step, if_pos hc, Planning.cursor_inv,
        decide_eq_true_eq]
      intro _
      exact hc
    · simp only [Planning.advance_step, if_neg hc]
      exact h
  · unfold Planning.update_plan_step
    split
    · simp only [onUpdateOk, Planning.cursor_inv, decide_eq_true_eq,
        List.length_set]
      simp only [Planning.cursor_inv, decide_eq_true_eq] at h
      exact h
    · rfl
  · by_cases hc : p.current_step_index + 1 < (p.plan_steps.length : Int)
    · simp [Planning.advance_step, if_pos hc]
    · simp [Planning.advance_step, if_neg hc]
  · unfold Planning.update_plan_step
    split
    · simp [onUpdateOk]
    · rfl
  · by_cases hc : p.current_step_index + 1 < (p.plan_steps.length : Int)
    · simp [Planning.advance_step, if_pos hc]
    · simp [Planning.advance_step, if_neg hc]
  · unfold Planning.update_plan_step
    split
    · simp [onUpdateOk]
    · rfl

/-- Witness for `planning_ops_preserve_invariants` at a two-step plan
with cursor `0`, updating index `1`. -/
theorem planning_ops_preserve_invariants_witness :
    ({ requirement := "看天气", info_list := ["晴"],
       plan_steps := ["查天气", "查景点"],
       current_step_index := 0 } : Planning).cursor_inv = true ∧
    (let p0 : Planning :=
      { requirement := "看天气", info_list := ["晴"],
        plan_steps := ["查天气", "查景点"], current_step_index := 0 }
     (p0.add_info "上海 25 度").cursor_inv = true ∧
     (p0.set_plan_steps ["甲"]).cursor_inv = true ∧
     (p0.set_plan_steps_from_text "一。二。").cursor_inv = true ∧
     ((p0.advance_step).2).cursor_inv = true ∧
     onUpdateOk (p0.update_plan_step 1 "改") Planning.cursor_inv = true ∧
     (p0.add_info "上海 25 度").plan_steps = p0.plan_steps ∧
     ((p0.advance_step).2).plan_steps = p0.plan_steps ∧
     (p0.set_plan_steps ["甲"]).plan_steps = ["甲"] ∧
     (p0.set_plan_steps_from_text "一。二。").plan_steps =
       parse_plan_steps "一。二。" ∧
     onUpdateOk (p0.update_plan_step 1 "改")
       (fun q => decide (q.plan_steps = p0.plan_steps.set (1 : Int).toNat "改") &&
         decide (q.plan_steps.length = p0.plan_steps.length)) = true ∧
     (p0.add_info "上海 25 度").info_list = p0.info_list ++ ["上海 25 度"] ∧
     (p0.set_plan_steps ["甲"]).info_list = p0.info_list ∧
     (p0.set_plan_steps_from_text "一。二。").info_list = p0.info_list ∧
     ((p0.advance_step).2).info_list = p0.info_list ∧
     onUpdateOk (p0.update_plan_step 1 "改")
       (fun q => decide (q.info_list = p0.info_list)) = true) :=
  ⟨by decide,
    planning_ops_preserve_invariants
      { requirement := "看天气", info_list := ["晴"],
        plan_steps := ["查天气", "查景点"], current_step_index := 0 }
      "上海 25 度" "一。二。" "改" ["甲"] 1 (by decide)⟩

/-! ## Claim theorems: tool conversion and dispatch guard -/

/-- C9: the conversion of a tool descriptor to the model-caller wire
record produces `{ type := "function", function := { name, description,
parameters } }`, is lossless (name, description and input schema are
recovered unchanged), and the list conversion is the element-wise,
order-preserving application of the single-descriptor conversion. -/
theorem convert_tool_roundtrip (t : Tool) (ts : List Tool) :
    convert_tool_to_openai_param t =
      { type_ := "function",
        function := { name := t.name, description := t.description,
                      parameters := t.inputSchema } } ∧
    tool_of_openai_param (convert_tool_to_openai_param t) = t ∧
    convert_tools_to_openai_params ts = ts.map convert_tool_to_openai_param ∧
    (convert_tools_to_openai_params ts).map tool_of_openai_param = ts ∧
    (convert_tools_to_openai_params ts).length = ts.length := by
  refine ⟨rfl, rfl, rfl, ?_, by simp [convert_tools_to_openai_params]⟩
  unfold convert_tools_to_openai_params
  rw [List.map_map]
  have hcomp : tool_of_openai_param ∘ convert_tool_to_openai_param = id := by
    funext x
    rfl
  rw [hcomp, List.map_id]

/-- C2: invoking a tool name absent from the catalog.  With a connected
session and an empty cache, `call_tool` first performs a `list_tools`
network call; against a non-empty catalog the registration guard then
raises `KeyError: name` (because the converted tool dicts only carry the
keys `type` and `function`), not the documented
`ValueError "工具 ... 未注册或不可用"`; only against an empty catalog is
the `ValueError` reached — and in both cases the `list_tools` network
call has already happened.  No tool invocation is performed in either
case. -/
theorem call_tool_unknown_name_raises_keyerror :
    GaoDeMCPClient.call_tool [mapsWeatherTool] (fun _ _ => "ok")
        { sessionConnected := true, toolsCache := [] } "maps_unknown" "\x7b\x7d" =
      ({ sessionConnected := true,
         toolsCache := convert_tools_to_openai_params [mapsWeatherTool] },
       Except.error (PyError.keyError "name"), [NetOp.listTools]) ∧
    GaoDeMCPClient.call_tool [] (fun _ _ => "ok")
        { sessionConnected := true, toolsCache := [] } "maps_unknown" "\x7b\x7d" =
      ({ sessionConnected := true, toolsCache := [] },
       Except.error
         (PyError.valueError "工具 \x27maps_unknown\x27 未注册或不可用"),
       [NetOp.listTools]) := by
  refine ⟨rfl, rfl⟩

/-- C7 (Scenario C evaluated on the code): in a round where the model
requests `maps_weather` with `city = 上海` against a remote catalog that
contains `maps_weather`, the loop emits the tool-call progress event and
then aborts with `KeyError: name` raised by the registration guard of
`call_tool`: no tool invocation is performed, no observation is
appended, and the only network operation is the `list_tools` fetch. -/
theorem scenario_c_round_aborts_with_keyerror :
    (runRound envScenarioC stScenarioC).events =
      [RunEvent.separator, RunEvent.currentStep "查询上海天气",
       RunEvent.toolCall "maps_weather"
         "\x7b\x22city\x22: \x22上海\x22\x7d"] ∧
    (runRound envScenarioC stScenarioC).exit =
      RoundExit.failed (RunError.pyError (PyError.keyError "name")) ∧
    (runRound envScenarioC stScenarioC).state.planning.info_list = [] ∧
    (runRound envScenarioC stScenarioC).netops = [NetOp.listTools] := by
  refine ⟨by decide, by decide, by decide, by decide⟩

/-! ## Round and loop lemmas -/

theorem withContentAt_llm_ne (env : RunEnv) (k : Nat) (c : String) (j : Nat)
    (hj : j ≠ k) : (env.withContentAt k c).llm j = env.llm j := by
  simp [RunEnv.withContentAt, hj]

theorem withContentAt_finish (env : RunEnv) (k : Nat) (c : String) :
    ((env.withContentAt k c).llm k).finish_reason =
      (env.llm k).finish_reason := by
  simp [RunEnv.withContentAt]

theorem advance_step_plan_steps (p : Planning) :
    ((p.advance_step).2).plan_steps = p.plan_steps := by
  by_cases hc : p.current_step_index + 1 < (p.plan_steps.length : Int)
  · simp [Planning.advance_step, hc]
  · simp [Planning.advance_step, hc]

theorem advance_step_info_list (p : Planning) :
    ((p.advance_step).2).info_list = p.info_list := by
  by_cases hc : p.current_step_index + 1 < (p.plan_steps.length : Int)
  · simp [Planning.advance_step, hc]
  · simp [Planning.advance_step, hc]

theorem runRound_congr (env env2 : RunEnv) (st : LoopState)
    (h : (env.llm st.llmCount).finish_reason ≠ "tool_calls")
    (h1 : (env2.llm st.llmCount).finish_reason =
      (env.llm st.llmCount).finish_reason)
    (h2 : env2.llm (st.llmCount + 1) = env.llm (st.llmCount + 1)) :
    runRound env2 st = runRound env st := by
  simp only [runRound, h1, h2, if_neg h]

theorem runRound_state_planning (env : RunEnv) (st : LoopState)
    (h : (env.llm st.llmCount).finish_reason ≠ "tool_calls") :
    (runRound env st).state.planning = (st.planning.advance_step).2 := by
  simp only [runRound, if_neg h]
  by_cases ha : (st.planning.advance_step).1
  · simp [ha]
  · simp [ha]

theorem runLoop_rounds_le (env : RunEnv) :
    ∀ (n : Nat) (st : LoopState) (acc : RunAcc),
      (runLoop env n st acc).1.rounds ≤ acc.rounds + n := by
  intro n
  induction n with
  | zero =>
    intro st acc
    simp [runLoop]
  | succ n ih =>
    intro st acc
    simp only [runLoop]
    split
    · exact (ih _ _).trans (by dsimp only; omega)
    · dsimp only
      omega
    · dsimp only
      omega

theorem stateAfter_shift (env : RunEnv) (st : LoopState) :
    ∀ i : Nat, stateAfter env st (i + 1) =
      stateAfter env ((runRound env st).state) i := by
  intro i
  induction i with
  | zero => rfl
  | succ i ih =>
    show (runRound env (stateAfter env st (i + 1))).state = _
    rw [ih]
    rfl

theorem runLoop_exhausts (env : RunEnv) :
    ∀ (n : Nat) (st : LoopState) (acc : RunAcc),
      (∀ i < n,
        (runRound env (stateAfter env st i)).exit = RoundExit.nextRound) →
      (runLoop env n st acc).2.2 = LoopOutcome.exhausted ∧
      (runLoop env n st acc).1.rounds = acc.rounds + n := by
  intro n
  induction n with
  | zero =>
    intro st acc _
    exact ⟨rfl, rfl⟩
  | succ n ih =>
    intro st acc h
    have h0 : (runRound env st).exit = RoundExit.nextRound :=
      h 0 (Nat.succ_pos n)
    have h2 : ∀ i < n,
        (runRound env (stateAfter env ((runRound env st).state) i)).exit =
          RoundExit.nextRound := by
      intro i hi
      rw [← stateAfter_shift]
      exact h (i + 1) (by omega)
    simp only [runLoop]
    rw [h0]
    dsimp only
    rcases ih (runRound env st).state
      { events := acc.events ++ (runRound env st).events,
        calls := acc.calls ++ (runRound env st).calls,
        netops := acc.netops ++ (runRound env st).netops,
        rounds := acc.rounds + 1 } h2 with ⟨ha, hb⟩
    refine ⟨ha, ?_⟩
    rw [hb]
    dsimp only
    omega

theorem run_rounds_eq (env : RunEnv) (u : String) :
    (MCPAgent.run env u).rounds =
      (runLoop env 6 (initLoopState env u) (initRunAcc env u)).1.rounds := by
  simp only [MCPAgent.run]
  split
  · rfl
  · rfl
  · split
    · rfl
    · rfl

/-! ## Claim theorems: the reasoning loop -/

/-- C10: in a round whose model reply has a `finish_reason` other than
`"tool_calls"`, the round leaves the observation list and the step list
unchanged and the planning state changes only through `advance_step`;
and the message content of the reply is discarded entirely: replacing it by
any other string `c` leaves the whole round result — its events, its
requests, its state and its exit (including a final answer, which comes
from the separate finalization call) — unchanged. -/
theorem non_toolcall_round_discards_reply (env : RunEnv) (st : LoopState)
    (c : String)
    (h : (env.llm st.llmCount).finish_reason ≠ "tool_calls") :
    (runRound env st).state.planning = (st.planning.advance_step).2 ∧
    (runRound env st).state.planning.plan_steps = st.planning.plan_steps ∧
    (runRound env st).state.planning.info_list = st.planning.info_list ∧
    runRound (env.withContentAt st.llmCount c) st = runRound env st := by
  have hp := runRound_state_planning env st h
  refine ⟨hp, ?_, ?_, ?_⟩
  · rw [hp]
    exact advance_step_plan_steps st.planning
  · rw [hp]
    exact advance_step_info_list st.planning
  · exact runRound_congr env (env.withContentAt st.llmCount c) st h
      (withContentAt_finish env st.llmCount c)
      (withContentAt_llm_ne env st.llmCount c (st.llmCount + 1)
        (Nat.succ_ne_self st.llmCount))

/-- Witness for `non_toolcall_round_discards_reply` at the first round of
`envSeven` (a `"stop"` reply). -/
theorem non_toolcall_round_discards_reply_witness :
    (envSeven.llm (initLoopState envSeven "帮我").llmCount).finish_reason ≠
      "tool_calls" ∧
    ((runRound envSeven (initLoopState envSeven "帮我")).state.planning =
      ((initLoopState envSeven "帮我").planning.advance_step).2 ∧
     (runRound envSeven
        (initLoopState envSeven "帮我")).state.planning.plan_steps =
       (initLoopState envSeven "帮我").planning.plan_steps ∧
     (runRound envSeven
        (initLoopState envSeven "帮我")).state.planning.info_list =
       (initLoopState envSeven "帮我").planning.info_list ∧
     runRound (envSeven.withContentAt
        (initLoopState envSeven "帮我").llmCount "忽略的内容")
        (initLoopState envSeven "帮我") =
       runRound envSeven (initLoopState envSeven "帮我")) :=
  ⟨by decide,
    non_toolcall_round_discards_reply envSeven
      (initLoopState envSeven "帮我") "忽略的内容" (by decide)⟩

/-- C1 (amended): the number of executed rounds never exceeds the budget
of 6; and a run whose six budgeted rounds all end with a successful
`advance_step` (so the no-more-steps condition is never reached) fails
after exactly 6 rounds with the
`LLMInvokeError "超过最大轮数仍未得到最终答案。"` exhaustion error — which is
the *same* exception class (`LLMInvokeError`) that transport failures of
the model caller are raised with, so it is distinguishable from them
only by its message text, not as a distinct error kind. -/
theorem run_round_budget_exhaustion (env : RunEnv) (u : String)
    (m : String) :
    (MCPAgent.run env u).rounds ≤ 6 ∧
    (allRoundsNext env u = true →
      (MCPAgent.run env u).rounds = 6 ∧
      (MCPAgent.run env u).error =
        some (RunError.llmInvokeError exhaustedMsg) ∧
      RunError.pythonClass (RunError.llmInvokeError exhaustedMsg) =
        RunError.pythonClass
          (RunError.llmInvokeError ("模型调用异常：" ++ m))) := by
  constructor
  · rw [run_rounds_eq]
    have hle := runLoop_rounds_le env 6 (initLoopState env u)
      (initRunAcc env u)
    simpa [initRunAcc] using hle
  · intro hall
    have h6 : ∀ i < 6,
        (runRound env (stateAfter env (initLoopState env u) i)).exit =
          RoundExit.nextRound := by
      intro i hi
      have hmem := List.all_eq_true.1 hall i (List.mem_range.2 hi)
      exact of_decide_eq_true hmem
    rcases runLoop_exhausts env 6 (initLoopState env u) (initRunAcc env u) h6
      with ⟨hout, hrounds⟩
    refine ⟨?_, ?_, rfl⟩
    · rw [run_rounds_eq, hrounds]
      rfl
    · simp only [MCPAgent.run]
      rw [hout]

/-- Witness for `run_round_budget_exhaustion`: `envSeven` plans seven
steps, so all six budgeted rounds advance and the run fails with the
exhaustion `LLMInvokeError` after exactly six rounds. -/
theorem run_round_budget_exhaustion_witness :
    allRoundsNext envSeven "帮我" = true ∧
    ((MCPAgent.run envSeven "帮我").rounds = 6 ∧
     (MCPAgent.run envSeven "帮我").error =
       some (RunError.llmInvokeError exhaustedMsg) ∧
     RunError.pythonClass (RunError.llmInvokeError exhaustedMsg) =
       RunError.pythonClass
         (RunError.llmInvokeError ("模型调用异常：" ++ "Connection error"))) :=
  ⟨by decide,
    (run_round_budget_exhaustion envSeven "帮我" "Connection error").2
      (by decide)⟩

/-- C1 counterexample to the "distinct exhausted error kind" part of the
claim: the run of `envSeven` exhausts the budget after exactly six
rounds, but the error it raises is `LLMInvokeError` — the same Python
exception class that `LLMClient.call` raises for model-invocation
(transport) failures — so the exhaustion is *not* reported as a
distinct error kind. -/
theorem run_exhaustion_same_class_as_transport :
    (MCPAgent.run envSeven "帮我").rounds = 6 ∧
    (MCPAgent.run envSeven "帮我").error =
      some (RunError.llmInvokeError exhaustedMsg) ∧
    RunError.pythonClass (RunError.llmInvokeError exhaustedMsg) =
      RunError.pythonClass
        (RunError.llmInvokeError "模型调用异常：Connection error") := by
  refine ⟨by decide, by decide, rfl⟩

/-- C5 (amended): when the planning phase yields an empty plan and the
model reply of the first round is not a tool-call reply, the loop finalizes
in round one: exactly three model requests are made — planning, one
round request, and a final-answer request whose context renders the
empty observation list — no tool-call progress event is emitted, no
network operation reaches the tool session, no observation is ever
appended, and the run ends after a single round. -/
theorem empty_plan_finalizes_in_first_round (env : RunEnv) (u : String)
    (h1 : parse_plan_steps ((env.llm 0).message.content) = [])
    (h2 : (env.llm 1).finish_reason ≠ "tool_calls") :
    MCPAgent.run env u =
      { events := [RunEvent.planHeader,
          RunEvent.planBody (Planning.init u).render, RunEvent.separator,
          RunEvent.separator, RunEvent.currentStep "None",
          RunEvent.noNextStep] ++
          (if (env.llm 2).message.content = "" then []
           else [RunEvent.finalAnswer ((env.llm 2).message.content)]),
        calls := [planningRequest u,
          { messages := [("user", (Planning.init u).render)],
            tools_attached := true },
          { messages := [("user",
              "根据以下信息给出最终结果:\n" ++ (Planning.init u).render)],
            tools_attached := false }],
        netops := [],
        rounds := 1,
        error := if (env.llm 2).message.content = "" then
            some (RunError.llmInvokeError exhaustedMsg)
          else none,
        final := if (env.llm 2).message.content = "" then none
          else some ((env.llm 2).message.content),
        endState :=
          { planning := Planning.init u,
            client := { sessionConnected := true, toolsCache := [] },
            llmCount := 3 } } := by
  have hp0 : initialPlanning env u = Planning.init u := by
    unfold initialPlanning Planning.set_plan_steps_from_text
    rw [h1]
    rfl
  have hadv : (Planning.init u).advance_step = (false, Planning.init u) := rfl
  have hcs : (Planning.init u).get_current_step = none := rfl
  simp only [MCPAgent.run, runLoop, runRound, initLoopState, initRunAcc, hp0,
    if_neg h2, hadv, hcs, pyStrOfOption]
  by_cases ha : (env.llm 2).message.content = ""
  · simp [ha]
  · simp [ha]

/-- Witness for `empty_plan_finalizes_in_first_round` at
`envEmptyPlanStop` (empty planning reply, `"stop"` round reply, final
answer `"上海今天晴。"`). -/
theorem empty_plan_finalizes_in_first_round_witness :
    parse_plan_steps ((envEmptyPlanStop.llm 0).message.content) = [] ∧
    (envEmptyPlanStop.llm 1).finish_reason ≠ "tool_calls" ∧
    MCPAgent.run envEmptyPlanStop "帮我" =
      { events := [RunEvent.planHeader,
          RunEvent.planBody (Planning.init "帮我").render, RunEvent.separator,
          RunEvent.separator, RunEvent.currentStep "None",
          RunEvent.noNextStep] ++
          (if (envEmptyPlanStop.llm 2).message.content = "" then []
           else [RunEvent.finalAnswer
              ((envEmptyPlanStop.llm 2).message.content)]),
        calls := [planningRequest "帮我",
          { messages := [("user", (Planning.init "帮我").render)],
            tools_attached := true },
          { messages := [("user",
              "根据以下信息给出最终结果:\n" ++ (Planning.init "帮我").render)],
            tools_attached := false }],
        netops := [],
        rounds := 1,
        error := if (envEmptyPlanStop.llm 2).message.content = "" then
            some (RunError.llmInvokeError exhaustedMsg)
          else none,
        final := if (envEmptyPlanStop.llm 2).message.content = "" then none
          else some ((envEmptyPlanStop.llm 2).message.content),
        endState :=
          { planning := Planning.init "帮我",
            client := { sessionConnected := true, toolsCache := [] },
            llmCount := 3 } } :=
  ⟨by decide, by decide,
    empty_plan_finalizes_in_first_round envEmptyPlanStop "帮我"
      (by decide) (by decide)⟩

/-- C5 counterexample: with an empty plan but a first-round model reply
that *does* request tool calls, the code does not finalize immediately —
the tool-call branch runs first, and (through the registration guard of
`call_tool`) the run aborts with `KeyError: name` without ever reaching
the no-next-step finalization. -/
theorem empty_plan_with_toolcall_does_not_finalize :
    (MCPAgent.run envEmptyPlanTools "帮我").error =
      some (RunError.pyError (PyError.keyError "name")) ∧
    RunEvent.noNextStep ∉ (MCPAgent.run envEmptyPlanTools "帮我").events ∧
    (MCPAgent.run envEmptyPlanTools "帮我").rounds = 1 ∧
    (MCPAgent.run envEmptyPlanTools "帮我").final = none := by
  refine ⟨by decide, by decide, by decide, by decide⟩
